import Mathlib

/-!
Shallow embedding of the inventory-ledger / recipe-cost core of the
swadoftamil backend (Django), for checking the natural-language spec.

Sources embedded:
  * `src/backend/ingredients/models.py` — `Ingredient.to_base_unit`,
    `Ingredient.cost_for_quantity`, `Ingredient.stock_qty`,
    `IngredientStockLedger`.
  * `src/backend/menu/models.py` — `PreparedItem.get_available_quantity`,
    `PreparedItem.recompute_and_cache_cost`, recipe / combo structures.
  * `src/backend/menu/signals.py` — `on_ingredient_change`.
  * `src/backend/orders/models.py` — `Order.confirm_order` and its
    `_deduct_*` helpers.
  * `src/backend/snacks/models.py` — FIFO snack batch consumption.

Python `Decimal` values are modelled as exact rationals (ℚ); the two
`quantize` roundings that occur in the embedded code (`ROUND_HALF_UP`
explicitly, and the context default `ROUND_HALF_EVEN` for the bare
`.quantize(Q2)` on the fallback-pricing path) are modelled explicitly.
Django's `transaction.atomic` is modelled by discarding the partial
state whenever the transaction body raises.
-/

namespace Swad

/-- ROUND_HALF_UP to 2 decimal places: round to the nearest multiple of
1/100, ties away from zero (Python `Decimal.quantize(Q2, ROUND_HALF_UP)`). -/
def roundHalfUp2 (x : ℚ) : ℚ :=
  if 0 ≤ x then (⌊x * 100 + 1/2⌋ : ℚ) / 100
  else -((⌊(-x) * 100 + 1/2⌋ : ℚ) / 100)

/-- ROUND_HALF_EVEN to 2 decimal places: round to the nearest multiple of
1/100, ties to even (Python context default used by a bare `.quantize(Q2)`). -/
def quantizeHalfEven2 (x : ℚ) : ℚ :=
  let y := x * 100
  let n : ℤ := ⌊y⌋
  let r : ℚ := y - (n : ℚ)
  let m : ℤ :=
    if r < 1/2 then n
    else if 1/2 < r then n + 1
    else if n % 2 = 0 then n else n + 1
  (m : ℚ) / 100

/-- Python `Decimal.__floordiv__`: the integer part of the true quotient,
truncated toward zero (equal to `floor` for the nonnegative operands used
by the availability code). -/
def decFloorDiv (a b : ℚ) : ℚ :=
  let q := a / b
  if 0 ≤ q then (⌊q⌋ : ℚ) else (⌈q⌉ : ℚ)

/-- The three strict base units of `Ingredient.UNIT_CHOICES`. -/
inductive BaseUnit where
  | kg
  | ltr
  | pcs
deriving DecidableEq, Repr

/-- String form of a base unit as stored in `Ingredient.unit`. -/
def BaseUnit.str : BaseUnit → String
  | .kg => "kg"
  | .ltr => "ltr"
  | .pcs => "pcs"

/-- Ledger `change_type` choices of `IngredientStockLedger`. -/
inductive ChangeType where
  | opening
  | purchase
  | consumption
  | adjustment
  | wastage
deriving DecidableEq, Repr

/-- Error taxonomy: each constructor stands for one distinct `raise`
site (all are Django `ValidationError` / arithmetic errors at runtime;
the constructor records which raise statement fired). -/
inductive PyError where
  /-- `Ingredient.to_base_unit`: `Invalid unit conversion` raise. -/
  | unitMismatch
  /-- `Ingredient.cost_for_quantity`: zero stock under strict integrity. -/
  | costBlockedZeroStock
  /-- `Ingredient.cost_for_quantity`: zero stock and no usable fallback. -/
  | costBlockedNoFallback
  /-- `Order.confirm_order`: `Cannot confirm order with status: ...`. -/
  | cannotConfirmStatus (s : String)
  /-- `Order._deduct_snack_stock`: `Snack ... not found`. -/
  | snackNotFound
  /-- `Order._deduct_snack_stock` / `SnackBatch.consume`: insufficient snack stock. -/
  | insufficientSnackStock
  /-- Python `TypeError` (e.g. `None / Decimal` when batch output is unset). -/
  | typeError
  /-- Python `Decimal` division by zero / invalid operation. -/
  | divisionByZero
deriving DecidableEq, Repr

/-- An ingredient row (`ingredients.models.Ingredient`). `id` is the
primary key: `none` models an instance that has not been persisted
(`self.pk` falsy). Stock is *not* a field: it is derived from the ledger. -/
structure Ingredient where
  id : Option Nat
  name : String
  unit : BaseUnit
  cost_per_unit : ℚ
  fallback_cost_per_unit : Option ℚ
  is_active : Bool := true
deriving DecidableEq, Repr

/-- A ledger row (`ingredients.models.IngredientStockLedger`), restricted
to the fields the embedded logic reads or writes (the free-text `note`
and the timestamp are omitted). -/
structure LedgerEntry where
  ingredient : Option Nat
  change_type : ChangeType
  quantity_change : ℚ
  unit : BaseUnit
  related_order : Option Nat := none
  related_prepared_item : Option Nat := none
  related_combo : Option Nat := none
deriving DecidableEq, Repr

/-- ASCII lower-casing of one character (Python `str.lower` restricted to
the ASCII unit strings that occur in this code base). -/
def lowerChar (c : Char) : Char :=
  if 65 ≤ c.toNat ∧ c.toNat ≤ 90 then Char.ofNat (c.toNat + 32) else c

/-- Python `str.lower()` over the characters of the string. -/
def pyLower (s : String) : String :=
  ⟨s.data.map lowerChar⟩

/-- Python's notion of whitespace stripped by `str.strip()` (the
characters relevant to ASCII unit strings). -/
def isPySpace (c : Char) : Bool :=
  c = ' ' ∨ c = '\t' ∨ c = '\n' ∨ c = '\r'

/-- Python `str.strip()`: drop whitespace from both ends. -/
def pyStrip (s : String) : String :=
  ⟨((s.data.dropWhile isPySpace).reverse.dropWhile isPySpace).reverse⟩

/-- Normalization applied by `Ingredient.to_base_unit`: `strip().lower()`
followed by the `aliases` dictionary lookup (default: the string itself). -/
def normalizeUnit (unit : String) : String :=
  let s := pyLower (pyStrip unit)
  match s with
  | "g" => "gm"
  | "gram" => "gm"
  | "grams" => "gm"
  | "kg" => "kg"
  | "ml" => "ml"
  | "millilitre" => "ml"
  | "milliliter" => "ml"
  | "ltr" => "ltr"
  | "l" => "ltr"
  | "litre" => "ltr"
  | "pcs" => "pcs"
  | "pc" => "pcs"
  | "piece" => "pcs"
  | "pieces" => "pcs"
  | _ => s

/-- `Ingredient.to_base_unit(qty, unit)`: convert a quantity into the
ingredient's base unit, mirroring the chain of `if` tests; reaching the
end of the chain raises the `Invalid unit conversion` ValidationError. -/
def to_base_unit (ing : Ingredient) (qty : ℚ) (unit : String) : Except PyError ℚ :=
  let u := normalizeUnit unit
  match ing.unit with
  | .kg =>
      if u = "gm" then .ok (qty / 1000)
      else if u = "kg" then .ok qty
      else .error .unitMismatch
  | .ltr =>
      if u = "ml" then .ok (qty / 1000)
      else if u = "ltr" then .ok qty
      else .error .unitMismatch
  | .pcs =>
      if u = "pcs" then .ok qty
      else .error .unitMismatch

/-- `Ingredient.stock_qty` property: `0` for an unsaved instance,
otherwise the `Sum` aggregate of `quantity_change` over this
ingredient's ledger rows (`or QTY0` makes the empty aggregate `0`). -/
def stock_qty (ledger : List LedgerEntry) (ing : Ingredient) : ℚ :=
  match ing.id with
  | none => 0
  | some i => ((ledger.filter (fun e => e.ingredient = some i)).map
      (fun e => e.quantity_change)).sum

/-- The two recognized configuration flags, with the `getattr` defaults
used by `Ingredient.cost_for_quantity`. -/
structure Settings where
  strict_cost_integrity : Bool := true
  allow_fallback_pricing : Bool := true
deriving DecidableEq, Repr

/-- Python truthiness of `self.fallback_cost_per_unit` (`None` and `0`
are falsy). -/
def fallbackTruthy (ing : Ingredient) : Bool :=
  match ing.fallback_cost_per_unit with
  | none => false
  | some c => decide (c ≠ 0)

/-- Value of the fallback unit cost (`0` when unset; only read on the
truthy path). -/
def fallbackVal (ing : Ingredient) : ℚ :=
  ing.fallback_cost_per_unit.getD 0

/-- `Ingredient.cost_for_quantity(qty, qty_unit)`: convert to base unit,
then apply the zero-stock policy; otherwise price at `cost_per_unit`
with ROUND_HALF_UP quantization. -/
def cost_for_quantity (s : Settings) (ledger : List LedgerEntry)
    (ing : Ingredient) (qty : ℚ) (qty_unit : String) : Except PyError ℚ := do
  let qty_base ← to_base_unit ing qty qty_unit
  if stock_qty ledger ing = 0 then
    if s.strict_cost_integrity then
      throw .costBlockedZeroStock
    else if s.allow_fallback_pricing && fallbackTruthy ing then
      pure (quantizeHalfEven2 (qty_base * fallbackVal ing))
    else
      throw .costBlockedNoFallback
  else
    pure (roundHalfUp2 (qty_base * ing.cost_per_unit))

/-- `PreparedItem.production_mode` choices. -/
inductive ProdMode where
  | per_serving
  | batch
deriving DecidableEq, Repr

/-- One `PreparedItemRecipe` row: ingredient usage for one prepared item
(quantity meaning depends on the item's production mode). -/
structure RecipeLine where
  ingredient : Ingredient
  quantity : ℚ
  quantity_unit : String
deriving DecidableEq, Repr

/-- `menu.models.PreparedItem`, restricted to the fields the embedded
logic reads (`recipe_items` is the reverse relation of its recipe rows). -/
structure PreparedItem where
  id : Nat
  name : String
  serving_size : ℚ
  production_mode : ProdMode
  batch_output_quantity : Option ℚ
  cost_price_cached : ℚ
  recipe_items : List RecipeLine
deriving DecidableEq, Repr

/-- Converted base-unit requirement of one recipe line
(`recipe.ingredient.to_base_unit(recipe.quantity, recipe.quantity_unit)`). -/
def reqBase (r : RecipeLine) : Except PyError ℚ :=
  to_base_unit r.ingredient r.quantity r.quantity_unit

/-- Value of `reqBase` on the success path (`0` on error; only used in
statements whose hypotheses force the success case). -/
def reqBaseVal (r : RecipeLine) : ℚ :=
  match reqBase r with
  | .ok v => v
  | .error _ => 0

/-- The shared body of the two min-reduction loops in
`PreparedItem.get_available_quantity` (the per-serving and batch loops
are textually identical in the source). `none` models the early
`return 0` taken when a line's converted requirement or stock is
non-positive; a raised unit-conversion error propagates. -/
def availMinLoop (ledger : List LedgerEntry) (acc : ℚ) :
    List RecipeLine → Except PyError (Option ℚ)
  | [] => .ok (some acc)
  | r :: rest => do
      let required_base ← reqBase r
      if required_base ≤ 0 then
        pure none
      else if stock_qty ledger r.ingredient ≤ 0 then
        pure none
      else
        availMinLoop ledger (min acc (decFloorDiv (stock_qty ledger r.ingredient) required_base)) rest

/-- `PreparedItem.get_available_quantity()`: maximum servings producible
from current stock. The min-reductions start from the source's sentinel
`999999` ("large number for unlimited"). In batch mode a falsy
`batch_output_quantity` (unset or `0`) yields `0`, and
`batch_output_quantity // serving_size` raises on a zero serving size. -/
def get_available_quantity (ledger : List LedgerEntry) (pi : PreparedItem) :
    Except PyError ℚ :=
  if pi.recipe_items.isEmpty then .ok 0
  else
    match pi.production_mode with
    | .per_serving => do
        match ← availMinLoop ledger 999999 pi.recipe_items with
        | none => pure 0
        | some available => pure available
    | .batch =>
        match pi.batch_output_quantity with
        | none => .ok 0
        | some b =>
            if b = 0 then .ok 0
            else do
              match ← availMinLoop ledger 999999 pi.recipe_items with
              | none => pure 0
              | some available_batches =>
                  if pi.serving_size = 0 then throw .divisionByZero
                  else pure (available_batches * decFloorDiv b pi.serving_size)

/-- `PreparedItemRecipe.ingredient_cost()`:
`cost_for_quantity(...).quantize(Q2, ROUND_HALF_UP)`. -/
def ingredient_cost (s : Settings) (ledger : List LedgerEntry)
    (r : RecipeLine) : Except PyError ℚ := do
  let c ← cost_for_quantity s ledger r.ingredient r.quantity r.quantity_unit
  pure (roundHalfUp2 c)

/-- `PreparedItem.recompute_and_cache_cost()`: sum of the recipe lines'
ingredient costs, quantized ROUND_HALF_UP; any `CostBlocked` /
`UnitMismatch` raised by a line propagates out of this method. -/
def recompute_and_cache_cost (s : Settings) (ledger : List LedgerEntry)
    (pi : PreparedItem) : Except PyError ℚ := do
  let total ← pi.recipe_items.foldlM
    (fun acc r => do pure (acc + (← ingredient_cost s ledger r))) (0 : ℚ)
  pure (roundHalfUp2 total)

/-- The per-item body of `menu.signals.on_ingredient_change`: `try`
recompute and store the new cached cost, `except Exception` log and keep
the previous cache. -/
def onIngredientChangeOne (s : Settings) (ledger : List LedgerEntry)
    (pi : PreparedItem) : PreparedItem :=
  match recompute_and_cache_cost s ledger pi with
  | .ok c => { pi with cost_price_cached := c }
  | .error _ => pi

/-- `menu.models.ComboItem`: a prepared item times an integer quantity
inside a combo, with its cached extended cost. -/
structure ComboItem where
  prepared_item : PreparedItem
  quantity : Nat
  cost_cached : ℚ
deriving DecidableEq, Repr

/-- `menu.models.Combo`: the sellable bundle. -/
structure Combo where
  id : Nat
  name : String
  items : List ComboItem
deriving DecidableEq, Repr

/-- `Combo.total_cost`: sum of the items' cached costs, quantized. -/
def total_cost (c : Combo) : ℚ :=
  quantizeHalfEven2 ((c.items.map (fun i => i.cost_cached)).sum)

/-- `snacks.models.SnackBatch`, restricted to the fields the FIFO
deduction reads (`units_remaining` is authoritative per batch). -/
structure SnackBatch where
  received : Bool
  units_remaining : Nat
deriving DecidableEq, Repr

/-- `snacks.models.Snack` with its batches listed in `produced_at` order
(the FIFO order used by `next_consumable_batch`). -/
structure Snack where
  id : Nat
  name : String
  batches : List SnackBatch
deriving DecidableEq, Repr

/-- The `while quantity_needed > 0` loop of `Order._deduct_snack_stock`:
repeatedly take the oldest received batch with remaining units and
consume `min(quantity_needed, batch.units_remaining)`; raise when no
consumable batch is left. -/
def deductSnackBatches (needed : Nat) :
    List SnackBatch → Except PyError (List SnackBatch)
  | [] => if needed = 0 then .ok [] else .error .insufficientSnackStock
  | b :: rest =>
      if needed = 0 then .ok (b :: rest)
      else if b.received && decide (0 < b.units_remaining) then
        if needed ≤ b.units_remaining then
          .ok ({ b with units_remaining := b.units_remaining - needed } :: rest)
        else do
          let rest2 ← deductSnackBatches (needed - b.units_remaining) rest
          pure ({ b with units_remaining := 0 } :: rest2)
      else do
        let rest2 ← deductSnackBatches needed rest
        pure (b :: rest2)

/-- `orders.models.OrderCombo`: a combo line of an order. -/
structure OrderCombo where
  combo : Combo
  quantity : Nat
deriving DecidableEq, Repr

/-- `orders.models.OrderItem`: a standalone prepared-item line. -/
structure OrderItem where
  prepared_item : PreparedItem
  quantity : Nat
deriving DecidableEq, Repr

/-- `orders.models.OrderSnack`: a snack line. -/
structure OrderSnack where
  snack_id : Nat
  quantity : Nat
deriving DecidableEq, Repr

/-- `orders.models.Order`, restricted to what `confirm_order` reads. -/
structure Order where
  id : Nat
  status : String
  order_combos : List OrderCombo
  order_items : List OrderItem
  order_snacks : List OrderSnack
deriving DecidableEq, Repr

/-- The database state the consumption transaction touches: the
ingredient ledger (append-only) and the snack batch rows. -/
structure DB where
  ledger : List LedgerEntry
  snacks : List Snack
deriving DecidableEq, Repr

/-- The mode-dependent consumption computation at the top of each
iteration of the recipe loop in
`Order._deduct_prepared_item_stock_for_quantity`. Batch mode with an
unset output quantity raises `TypeError` (`None / Decimal`); a zero
divisor raises the Decimal division error. -/
def lineConsumption (pi : PreparedItem) (quantity : ℚ) (r : RecipeLine) :
    Except PyError ℚ :=
  match pi.production_mode with
  | .per_serving => pure (r.quantity * quantity)
  | .batch =>
      match pi.batch_output_quantity with
      | none => throw .typeError
      | some b =>
          if pi.serving_size = 0 then throw .divisionByZero
          else
            let servings_per_batch := b / pi.serving_size
            if servings_per_batch = 0 then throw .divisionByZero
            else pure (r.quantity * (quantity / servings_per_batch))

/-- One iteration of the recipe loop in
`Order._deduct_prepared_item_stock_for_quantity`: compute this line's
consumption from the production mode, convert it to the base unit, and
create one negative `consumption` ledger entry. -/
def deductOneRecipeLine (orderId : Nat) (pi : PreparedItem) (quantity : ℚ)
    (combo : Option Nat) (r : RecipeLine) (ledger : List LedgerEntry) :
    Except PyError (List LedgerEntry) := do
  let consumption ← lineConsumption pi quantity r
  let consumption_base ← to_base_unit r.ingredient consumption r.quantity_unit
  pure (ledger ++ [{
    ingredient := r.ingredient.id
    change_type := .consumption
    quantity_change := -consumption_base
    unit := r.ingredient.unit
    related_order := some orderId
    related_prepared_item := some pi.id
    related_combo := combo }])

/-- The recipe loop of `Order._deduct_prepared_item_stock_for_quantity`:
one ledger entry per recipe line, in recipe order. -/
def deductRecipeLines (orderId : Nat) (pi : PreparedItem) (quantity : ℚ)
    (combo : Option Nat) :
    List RecipeLine → List LedgerEntry → Except PyError (List LedgerEntry)
  | [], ledger => .ok ledger
  | r :: rest, ledger => do
      let ledger2 ← deductOneRecipeLine orderId pi quantity combo r ledger
      deductRecipeLines orderId pi quantity combo rest ledger2

/-- `Order._deduct_prepared_item_stock_for_quantity` as a state step on
the database. -/
def deductPreparedItemStockForQuantity (orderId : Nat) (pi : PreparedItem)
    (quantity : ℚ) (combo : Option Nat) (db : DB) : Except PyError DB := do
  let ledger2 ← deductRecipeLines orderId pi quantity combo pi.recipe_items db.ledger
  pure { db with ledger := ledger2 }

/-- The `combo.items` loop of `Order._deduct_combo_stock`: each combo
item's prepared item is deducted for `combo_item.quantity × combo_quantity`. -/
def deductComboItems (orderId : Nat) (comboId : Nat) (comboQty : Nat) :
    List ComboItem → DB → Except PyError DB
  | [], db => .ok db
  | ci :: rest, db => do
      let db2 ← deductPreparedItemStockForQuantity orderId ci.prepared_item
        ((ci.quantity : ℚ) * (comboQty : ℚ)) (some comboId) db
      deductComboItems orderId comboId comboQty rest db2

/-- `Order._deduct_combo_stock(order_combo)`. -/
def deductComboStock (orderId : Nat) (oc : OrderCombo) (db : DB) :
    Except PyError DB :=
  deductComboItems orderId oc.combo.id oc.quantity oc.combo.items db

/-- `Order._deduct_prepared_item_stock(order_item)`. -/
def deductPreparedItemStock (orderId : Nat) (oi : OrderItem) (db : DB) :
    Except PyError DB :=
  deductPreparedItemStockForQuantity orderId oi.prepared_item
    (oi.quantity : ℚ) none db

/-- `Order._deduct_snack_stock(order_snack)`: FIFO consumption from the
snack's batches; unknown snack id raises. -/
def deductSnackStock (os : OrderSnack) (db : DB) : Except PyError DB :=
  match db.snacks.find? (fun s => s.id == os.snack_id) with
  | none => .error .snackNotFound
  | some s => do
      let batches2 ← deductSnackBatches os.quantity s.batches
      pure { db with snacks := (db.snacks.map
        (fun t => if t.id = os.snack_id then { t with batches := batches2 } else t)) }

/-- Sequencing of statements inside the `transaction.atomic` block: once
a step has raised, later steps do not run; the state at raise time is
kept so that the rollback performed by `transaction.atomic` is explicit. -/
def andThen (r : Option PyError × DB) (f : DB → Except PyError DB) :
    Option PyError × DB :=
  match r with
  | (some e, db) => (some e, db)
  | (none, db) =>
      match f db with
      | .ok db2 => (none, db2)
      | .error e => (some e, db)

/-- The body of the `with transaction.atomic()` block of
`Order.confirm_order`: deduct combos, then standalone prepared items,
then snacks. Returns the first raised error (if any) together with the
mutable state as of that point (pre-rollback). -/
def confirmRun (o : Order) (db : DB) : Option PyError × DB :=
  let r := o.order_combos.foldl
    (fun acc oc => andThen acc (deductComboStock o.id oc)) ((none, db))
  let r := o.order_items.foldl
    (fun acc oi => andThen acc (deductPreparedItemStock o.id oi)) r
  o.order_snacks.foldl (fun acc os => andThen acc (deductSnackStock os)) r

/-- `Order.confirm_order()`: reject a non-`placed` status before the
transaction; inside `transaction.atomic`, perform all deductions and set
the status to `confirmed`; any raise rolls the whole transaction back
(no partial state escapes). -/
def confirm_order (o : Order) (db : DB) : Except PyError (DB × Order) :=
  if o.status ≠ "placed" then .error (.cannotConfirmStatus o.status)
  else
    match confirmRun o db with
    | (none, db2) => .ok (db2, { o with status := "confirmed" })
    | (some e, _) => .error e

/-- The ledger an external reader observes after a `confirm_order`
attempt: the committed transaction's ledger on success, the untouched
original ledger after a rollback. -/
def confirmedLedger (o : Order) (db : DB) : List LedgerEntry :=
  match confirm_order o db with
  | .ok (db2, _) => db2.ledger
  | .error _ => db.ledger

/-- Consumption-typed ledger rows for a given ingredient id. -/
def consumptionEntriesFor (ledger : List LedgerEntry) (i : Nat) :
    List LedgerEntry :=
  ledger.filter (fun e => e.ingredient == some i && e.change_type == ChangeType.consumption)

/-- Physical dimension of a unit (spec §4.1 vocabulary). -/
inductive Dim where
  | mass
  | volume
  | count
deriving DecidableEq, Repr

/-- Dimension of a normalized unit string; `none` for unrecognized units. -/
def normDim (u : String) : Option Dim :=
  if u = "gm" ∨ u = "kg" then some .mass
  else if u = "ml" ∨ u = "ltr" then some .volume
  else if u = "pcs" then some .count
  else none

/-- Dimension of an ingredient's base unit. -/
def baseDim : BaseUnit → Dim
  | .kg => .mass
  | .ltr => .volume
  | .pcs => .count

/-! ## Spec-side definitions

These definitions are written from the wording of the spec (not from the
source); they exist only to be compared with the source-derived
definitions above. -/

/-- Spec wording (§8, ledger sum invariant): the sum of the signed
quantities of all ledger entries of the given ingredient id. -/
def specSignedSum (ledger : List LedgerEntry) (i : Nat) : ℚ :=
  (ledger.map (fun e => if e.ingredient = some i then e.quantity_change else 0)).sum

/-- Spec wording (C8): `min over recipe lines of floor(stock / required)`,
with no sentinel cap (defined for a nonempty line list; `0` for an empty
one). -/
def specMinOverLines (ledger : List LedgerEntry) : List RecipeLine → ℚ
  | [] => 0
  | r :: rest =>
      (rest.map (fun x => decFloorDiv (stock_qty ledger x.ingredient) (reqBaseVal x))).foldl
        min (decFloorDiv (stock_qty ledger r.ingredient) (reqBaseVal r))

/-- Spec wording (C8): uncapped batch-mode availability,
`(min over lines of floor(stock / required)) × floor(batch_output / serving_size)`. -/
def specBatchServings (ledger : List LedgerEntry) (pi : PreparedItem) : ℚ :=
  specMinOverLines ledger pi.recipe_items *
    decFloorDiv (pi.batch_output_quantity.getD 0) pi.serving_size

/-- Number of recipe-line expansions a committed confirmation processes:
one per (combo line × combo item × recipe line) plus one per
(standalone item line × recipe line). -/
def expansionLineCount (o : Order) : Nat :=
  ((o.order_combos.map (fun oc =>
      (oc.combo.items.map (fun ci => ci.prepared_item.recipe_items.length)).sum)).sum)
  + ((o.order_items.map (fun oi => oi.prepared_item.recipe_items.length)).sum)

/-- Ledger extension by `n` consumption entries: the post-state ledger is
the pre-state ledger plus `n` appended `consumption` rows. -/
def LedgerExt (l l2 : List LedgerEntry) (n : Nat) : Prop :=
  ∃ extra, l2 = l ++ extra ∧ extra.length = n ∧
    ∀ e ∈ extra, e.change_type = ChangeType.consumption

/-! ## Concrete fixtures

Small concrete catalog/ledger states used by the witness and
counterexample theorems. -/

/-- A kg-based ingredient, id 1, ₹50 per kg, no fallback cost. -/
def rice : Ingredient :=
  { id := some 1, name := "Rice", unit := .kg, cost_per_unit := 50,
    fallback_cost_per_unit := none }

/-- A kg-based ingredient, id 3, used by the batch-mode fixtures. -/
def tomato : Ingredient :=
  { id := some 3, name := "Tomato", unit := .kg, cost_per_unit := 30,
    fallback_cost_per_unit := none }

/-- A pcs-based ingredient, id 4. -/
def egg : Ingredient :=
  { id := some 4, name := "Egg", unit := .pcs, cost_per_unit := 8,
    fallback_cost_per_unit := none }

/-- A per-serving prepared item needing 1 kg of rice per serving, with a
previously cached cost of ₹5. -/
def idli : PreparedItem :=
  { id := 10, name := "Idli", serving_size := 1, production_mode := .per_serving,
    batch_output_quantity := none, cost_price_cached := 5,
    recipe_items := [{ ingredient := rice, quantity := 1, quantity_unit := "kg" }] }

/-- A second per-serving prepared item needing 200 g of rice per serving. -/
def dosa : PreparedItem :=
  { id := 12, name := "Dosa", serving_size := 1, production_mode := .per_serving,
    batch_output_quantity := none, cost_price_cached := 0,
    recipe_items := [{ ingredient := rice, quantity := 200, quantity_unit := "g" }] }

/-- A batch-mode prepared item: one batch needs 1 kg of tomato and yields
2 servings (output 200, serving size 100). -/
def sambarCap : PreparedItem :=
  { id := 11, name := "Sambar", serving_size := 100, production_mode := .batch,
    batch_output_quantity := some 200, cost_price_cached := 0,
    recipe_items := [{ ingredient := tomato, quantity := 1, quantity_unit := "kg" }] }

/-- A combo whose single item is one `idli`, with its cached cost. -/
def idliCombo : Combo :=
  { id := 20, name := "Idli Combo",
    items := [{ prepared_item := idli, quantity := 1, cost_cached := 5 }] }

/-- Empty database: no ledger entries, no snacks. -/
def dbEmpty : DB := { ledger := [], snacks := [] }

/-- An opening ledger entry of +10 kg of rice. -/
def riceOpening : LedgerEntry :=
  { ingredient := some 1, change_type := .opening, quantity_change := 10, unit := .kg }

/-- Database with 10 kg of rice in stock and one snack (id 7) holding a
single received batch with 1 unit remaining. -/
def dbStocked : DB :=
  { ledger := [riceOpening],
    snacks := [{ id := 7, name := "Chips",
                 batches := [{ received := true, units_remaining := 1 }] }] }

/-- Ledger holding 2 000 000 kg of tomato (used by the sentinel-cap
counterexample). -/
def tomatoHuge : List LedgerEntry :=
  [{ ingredient := some 3, change_type := .opening, quantity_change := 2000000, unit := .kg }]

/-- A placed order for one idli against an empty ledger (no stock). -/
def orderNoStock : Order :=
  { id := 100, status := "placed", order_combos := [],
    order_items := [{ prepared_item := idli, quantity := 1 }], order_snacks := [] }

/-- A placed order for one idli plus five units of snack 7 (only one unit
exists, so the snack step raises after the idli entry was written). -/
def orderSnackFail : Order :=
  { id := 101, status := "placed", order_combos := [],
    order_items := [{ prepared_item := idli, quantity := 1 }],
    order_snacks := [{ snack_id := 7, quantity := 5 }] }

/-- A placed order for one idli and one dosa: two distinct prepared items
whose recipes both draw on rice (ingredient id 1). -/
def orderTwoItems : Order :=
  { id := 102, status := "placed", order_combos := [],
    order_items := [{ prepared_item := idli, quantity := 1 },
                    { prepared_item := dosa, quantity := 1 }],
    order_snacks := [] }

/-- The database state `confirm_order orderTwoItems dbStocked` commits:
the opening entry plus one consumption entry per recipe line (idli draws
1 kg, dosa draws 200 g = 1/5 kg of the same rice). -/
def dbTwoAfter : DB :=
  { ledger := [riceOpening,
      { ingredient := some 1, change_type := .consumption, quantity_change := -1,
        unit := .kg, related_order := some 102, related_prepared_item := some 10,
        related_combo := none },
      { ingredient := some 1, change_type := .consumption, quantity_change := -(1/5),
        unit := .kg, related_order := some 102, related_prepared_item := some 12,
        related_combo := none }],
    snacks := dbStocked.snacks }

/-- `orderTwoItems` after its successful confirmation. -/
def orderTwoConfirmed : Order :=
  { orderTwoItems with status := "confirmed" }

/-- Rice with a configured fallback unit cost of ₹4. -/
def riceFB : Ingredient :=
  { rice with fallback_cost_per_unit := some 4 }

/-- An adjustment ledger entry of −2 kg of rice (drives stock negative). -/
def riceNegAdj : LedgerEntry :=
  { ingredient := some 1, change_type := .adjustment, quantity_change := -2, unit := .kg }

/-- The consumption entry `confirm_order orderNoStock dbEmpty` writes for
rice despite the empty ledger. -/
def entryNoStock : LedgerEntry :=
  { ingredient := some 1, change_type := .consumption, quantity_change := -1,
    unit := .kg, related_order := some 100, related_prepared_item := some 10,
    related_combo := none }

/-- The database `confirm_order orderNoStock dbEmpty` commits: one
consumption entry against an ingredient that had no stock at all. -/
def dbNoStockAfter : DB := { ledger := [entryNoStock], snacks := [] }

/-- The consumption entry written for idli's rice before the snack step
of `orderSnackFail` raises. -/
def entrySnackFail : LedgerEntry :=
  { ingredient := some 1, change_type := .consumption, quantity_change := -1,
    unit := .kg, related_order := some 101, related_prepared_item := some 10,
    related_combo := none }

/-- The pre-rollback state at which `orderSnackFail`'s transaction body
raises: the idli entry is already on the ledger. -/
def dbSnackFailMid : DB :=
  { ledger := dbStocked.ledger ++ [entrySnackFail], snacks := dbStocked.snacks }

/-- The spec's batch example: output 5000 ml, serving 100 ml (50
servings per batch), one batch needs 2 kg of tomato. -/
def sambarSpecExample : PreparedItem :=
  { id := 13, name := "Sambar 5000", serving_size := 100, production_mode := .batch,
    batch_output_quantity := some 5000, cost_price_cached := 0,
    recipe_items := [{ ingredient := tomato, quantity := 2, quantity_unit := "kg" }] }

/-- Ledger holding 5 kg of tomato (the spec example's stock). -/
def tomatoFive : List LedgerEntry :=
  [{ ingredient := some 3, change_type := .opening, quantity_change := 5, unit := .kg }]

/-! ## Theorems -/

/-- Unfolding lemma for the `Except` monad: binding a success applies
the continuation. -/
@[simp] theorem exceptBindOk {ε α β : Type} (a : α) (f : α → Except ε β) :
    (Except.ok a : Except ε α) >>= f = f a := rfl

/-- Unfolding lemma for the `Except` monad: binding a failure propagates it. -/
@[simp] theorem exceptBindErr {ε α β : Type} (e : ε) (f : α → Except ε β) :
    (Except.error e : Except ε α) >>= f = Except.error e := rfl

/-- Unfolding lemma: `throw` is `Except.error`. -/
@[simp] theorem exceptThrowEq {ε α : Type} (e : ε) :
    (throw e : Except ε α) = Except.error e := rfl

/-- Unfolding lemma: `pure` is `Except.ok`. -/
@[simp] theorem exceptPureEq {ε α : Type} (a : α) :
    (pure a : Except ε α) = Except.ok a := rfl

/-- Filtering an ingredient's entries and summing equals the signed sum
taken over the whole ledger. -/
theorem filter_sum_eq_specSignedSum (l : List LedgerEntry) (i : Nat) :
    ((l.filter (fun x => x.ingredient = some i)).map (fun x => x.quantity_change)).sum
      = specSignedSum l i := by
  induction l with
  | nil => simp [specSignedSum]
  | cons a l ih =>
      by_cases h : a.ingredient = some i <;>
        simp [specSignedSum, List.filter_cons, h, List.map_cons, List.sum_cons] <;>
        simp [specSignedSum] at ih <;> rw [ih]

/-- C5. `Ingredient.stock_qty` is exactly the sum of the signed
`quantity_change` values of the ingredient's ledger entries: it equals
the whole-ledger signed sum, it is `0` for an unsaved ingredient, it
shifts by exactly the appended entry's signed quantity on every append
(and is untouched by appends for other ingredients), and re-reading
without an intervening append returns the same value. -/
theorem c5_stock_equals_ledger_sum (ing : Ingredient) (ledger : List LedgerEntry)
    (e : LedgerEntry) (i : Nat) :
    (ing.id = some i → stock_qty ledger ing = specSignedSum ledger i) ∧
    (ing.id = none → stock_qty ledger ing = 0) ∧
    (ing.id = some i → stock_qty (ledger ++ [e]) ing
        = stock_qty ledger ing
          + (if e.ingredient = some i then e.quantity_change else 0)) ∧
    stock_qty ledger ing = stock_qty ledger ing := by
  refine ⟨?_, ?_, ?_, rfl⟩
  · intro h
    simp [stock_qty, h, filter_sum_eq_specSignedSum]
  · intro h
    simp [stock_qty, h]
  · intro h
    by_cases he : e.ingredient = some i <;>
      simp [stock_qty, h, List.filter_append, List.filter_cons, he]

/-- Witness for C5 at a concrete state: 10 kg of opening rice stock, then
an appended +10 entry doubles it. -/
theorem c5_stock_equals_ledger_sum_witness :
    stock_qty [riceOpening] rice = specSignedSum [riceOpening] 1 ∧
    stock_qty ([riceOpening] ++ [riceOpening]) rice
      = stock_qty [riceOpening] rice + 10 := by
  have h := c5_stock_equals_ledger_sum rice [riceOpening] riceOpening 1
  refine ⟨h.1 rfl, ?_⟩
  rw [h.2.2.1 rfl]
  norm_num [riceOpening]

/-- C7. `to_base_unit` converts normalized gram quantities into a
kilogram base by dividing by 1000 and normalized millilitre quantities
into a litre base by dividing by 1000; a pieces-based ingredient accepts
exactly piece-denominated quantities, unchanged; and any request whose
normalized unit's dimension differs from the ingredient's base dimension
ends in the `Invalid unit conversion` error. -/
theorem c7_to_base_unit_table (ing : Ingredient) (q : ℚ) (u : String) :
    (ing.unit = .kg → normalizeUnit u = "gm" → to_base_unit ing q u = .ok (q / 1000)) ∧
    (ing.unit = .ltr → normalizeUnit u = "ml" → to_base_unit ing q u = .ok (q / 1000)) ∧
    (ing.unit = .pcs → normalizeUnit u = "pcs" → to_base_unit ing q u = .ok q) ∧
    (ing.unit = .pcs → normalizeUnit u ≠ "pcs" →
        to_base_unit ing q u = .error .unitMismatch) ∧
    (normDim (normalizeUnit u) ≠ some (baseDim ing.unit) →
        to_base_unit ing q u = .error .unitMismatch) := by
  refine ⟨?_, ?_, ?_, ?_, ?_⟩
  · intro hk hn
    simp [to_base_unit, hk, hn]
  · intro hl hn
    simp [to_base_unit, hl, hn]
  · intro hp hn
    simp [to_base_unit, hp, hn]
  · intro hp hn
    simp [to_base_unit, hp, hn]
  · intro hd
    cases hu : ing.unit
    case kg =>
      rw [hu] at hd
      by_cases h1 : normalizeUnit u = "gm"
      · exact absurd (by simp [normDim, h1, baseDim]) hd
      · by_cases h2 : normalizeUnit u = "kg"
        · exact absurd (by simp [normDim, h2, baseDim]) hd
        · simp [to_base_unit, hu, h1, h2]
    case ltr =>
      rw [hu] at hd
      by_cases h1 : normalizeUnit u = "ml"
      · exact absurd (by simp [normDim, h1, baseDim]) hd
      · by_cases h2 : normalizeUnit u = "ltr"
        · exact absurd (by simp [normDim, h2, baseDim]) hd
        · simp [to_base_unit, hu, h1, h2]
    case pcs =>
      rw [hu] at hd
      by_cases h1 : normalizeUnit u = "pcs"
      · exact absurd (by simp [normDim, h1, baseDim]) hd
      · simp [to_base_unit, hu, h1]

/-- Witness for C7: 500 under the synonym " G " converts into half a
kilogram of rice, and millilitres into the pieces-based egg fail with the
conversion error. -/
theorem c7_to_base_unit_table_witness :
    to_base_unit rice 500 " G " = .ok (500 / 1000) ∧
    to_base_unit egg 3 "ml" = .error .unitMismatch := by
  refine ⟨(c7_to_base_unit_table rice 500 " G ").1 rfl (by decide), ?_⟩
  exact (c7_to_base_unit_table egg 3 "ml").2.2.2.2 (by decide)

/-- Converting a quantity already denominated in the ingredient's base
unit is the identity (the base unit string is always accepted unchanged). -/
theorem to_base_unit_base_id (ing : Ingredient) (v : ℚ) :
    to_base_unit ing v ing.unit.str = .ok v := by
  cases hu : ing.unit
  case kg =>
    have hn : normalizeUnit "kg" = "kg" := by decide
    simp [to_base_unit, hu, BaseUnit.str, hn]
  case ltr =>
    have hn : normalizeUnit "ltr" = "ltr" := by decide
    simp [to_base_unit, hu, BaseUnit.str, hn]
  case pcs =>
    have hn : normalizeUnit "pcs" = "pcs" := by decide
    simp [to_base_unit, hu, BaseUnit.str, hn]

/-- C9. Unit round-trip: re-converting the result of `to_base_unit`
under the ingredient's own base unit is a no-op, i.e. composing the
conversion with a base-unit conversion equals the original conversion
(on the error path both sides propagate the same error). -/
theorem c9_to_base_unit_round_trip (ing : Ingredient) (q : ℚ) (u : String) :
    (to_base_unit ing q u).bind (fun v => to_base_unit ing v ing.unit.str)
      = to_base_unit ing q u := by
  cases h : to_base_unit ing q u with
  | ok v => simp [Except.bind, h, to_base_unit_base_id]
  | error e => simp [Except.bind, h]

/-- C10. The zero-stock guard of `cost_for_quantity` tests equality with
zero only: an ingredient whose ledger sum is strictly negative is priced
as `base_quantity × cost_per_unit` (ROUND_HALF_UP to 2 decimals) exactly
as a positive-stock ingredient would be, bypassing strict-integrity
blocking and fallback pricing alike. -/
theorem c10_negative_stock_priced_normally (s : Settings)
    (ledger : List LedgerEntry) (ing : Ingredient) (q : ℚ) (u : String)
    (h : stock_qty ledger ing < 0) :
    cost_for_quantity s ledger ing q u
      = (to_base_unit ing q u).map
          (fun qb => roundHalfUp2 (qb * ing.cost_per_unit)) := by
  have hne : stock_qty ledger ing ≠ 0 := ne_of_lt h
  cases hb : to_base_unit ing q u with
  | ok qb => simp [cost_for_quantity, hb, hne, Except.map]
  | error e => simp [cost_for_quantity, hb, Except.map]

/-- Witness for C10: rice driven to −2 kg is still priced at ₹50. -/
theorem c10_negative_stock_priced_normally_witness :
    stock_qty [riceNegAdj] rice = -2 ∧
    cost_for_quantity { strict_cost_integrity := true, allow_fallback_pricing := true }
      [riceNegAdj] rice 1 "kg"
      = .ok 50 := by
  have hs : stock_qty [riceNegAdj] rice = -2 := by
    norm_num [stock_qty, rice, riceNegAdj]
  refine ⟨hs, ?_⟩
  rw [c10_negative_stock_priced_normally _ _ _ _ _ (by rw [hs]; norm_num)]
  have hn : normalizeUnit "kg" = "kg" := by decide
  simp [to_base_unit, rice, hn, Except.map, roundHalfUp2]
  norm_num

/-- C3 counterexample: strict mode disabled, a fallback cost of ₹5
configured, zero stock — yet with `SWAD_ALLOW_FALLBACK_PRICING = False`
the code raises the no-fallback `CostBlocked` error, where the claim
promises `base_quantity × fallback_unit_cost`. -/
theorem c3_counterexample_allow_fallback_off :
    fallbackTruthy riceFB = true ∧
    cost_for_quantity { strict_cost_integrity := false, allow_fallback_pricing := false }
      [] riceFB 1 "kg" = .error .costBlockedNoFallback := by
  have hn : normalizeUnit "kg" = "kg" := by decide
  constructor
  · norm_num [fallbackTruthy, riceFB, rice]
  · simp [cost_for_quantity, to_base_unit, riceFB, rice, hn, stock_qty]

/-- C3 (amended). With zero stock: strict mode always blocks costing,
even when a fallback is configured; with strict mode off, the fallback
price `base_quantity × fallback_unit_cost` (quantized to 2 decimals) is
returned only when fallback pricing is allowed *and* a (non-zero)
fallback cost is configured; otherwise costing is blocked. -/
theorem c3_zero_stock_policy (s : Settings) (ledger : List LedgerEntry)
    (ing : Ingredient) (q : ℚ) (u : String) (qb : ℚ)
    (hconv : to_base_unit ing q u = .ok qb)
    (hzero : stock_qty ledger ing = 0) :
    (s.strict_cost_integrity = true →
        cost_for_quantity s ledger ing q u = .error .costBlockedZeroStock) ∧
    (s.strict_cost_integrity = false → s.allow_fallback_pricing = true →
        fallbackTruthy ing = true →
        cost_for_quantity s ledger ing q u
          = .ok (quantizeHalfEven2 (qb * fallbackVal ing))) ∧
    (s.strict_cost_integrity = false →
        s.allow_fallback_pricing = false ∨ fallbackTruthy ing = false →
        cost_for_quantity s ledger ing q u = .error .costBlockedNoFallback) := by
  refine ⟨?_, ?_, ?_⟩
  · intro hstrict
    simp [cost_for_quantity, hconv, hzero, hstrict]
  · intro hstrict hallow hfb
    simp [cost_for_quantity, hconv, hzero, hstrict, hallow, hfb]
  · intro hstrict hor
    cases hor with
    | inl hallow => simp [cost_for_quantity, hconv, hzero, hstrict, hallow]
    | inr hfb => simp [cost_for_quantity, hconv, hzero, hstrict, hfb]

/-- Witness for C3 (amended): with strict off and fallback allowed,
500 g of zero-stock rice with a ₹4 fallback is priced at ₹2; with strict
on it is blocked. -/
theorem c3_zero_stock_policy_witness :
    cost_for_quantity { strict_cost_integrity := false, allow_fallback_pricing := true }
      [] riceFB 500 "g" = .ok 2 ∧
    cost_for_quantity { strict_cost_integrity := true, allow_fallback_pricing := true }
      [] riceFB 500 "g" = .error .costBlockedZeroStock := by
  have hn : normalizeUnit "g" = "gm" := by decide
  have hconv : to_base_unit riceFB 500 "g" = .ok (500 / 1000) := by
    simp [to_base_unit, riceFB, rice, hn]
  have hzero : stock_qty [] riceFB = 0 := by simp [stock_qty, riceFB, rice]
  have h := c3_zero_stock_policy
    { strict_cost_integrity := false, allow_fallback_pricing := true }
    [] riceFB 500 "g" (500 / 1000) hconv hzero
  have h2 := c3_zero_stock_policy
    { strict_cost_integrity := true, allow_fallback_pricing := true }
    [] riceFB 500 "g" (500 / 1000) hconv hzero
  refine ⟨?_, h2.1 rfl⟩
  rw [h.2.1 rfl rfl (by norm_num [fallbackTruthy, riceFB, rice])]
  norm_num [quantizeHalfEven2, fallbackVal, riceFB, rice]

/-- C4 counterexample: recomputing idli's cost against an empty ledger
fails with the zero-stock `CostBlocked` error, yet `on_ingredient_change`
catches the exception and leaves the stale cached cost of ₹5 in place, so
the combo containing idli still reports a total cost of ₹5 instead of a
blocked/unavailable state — the error never leaves the signal handler. -/
theorem c4_counterexample_stale_cost_served :
    recompute_and_cache_cost { strict_cost_integrity := true, allow_fallback_pricing := true }
      [] idli = .error .costBlockedZeroStock ∧
    onIngredientChangeOne { strict_cost_integrity := true, allow_fallback_pricing := true }
      [] idli = idli ∧
    idli.cost_price_cached = 5 ∧
    total_cost idliCombo = 5 := by
  have hn : normalizeUnit "kg" = "kg" := by decide
  have hrec : recompute_and_cache_cost
      { strict_cost_integrity := true, allow_fallback_pricing := true } [] idli
      = .error .costBlockedZeroStock := by
    simp [recompute_and_cache_cost, ingredient_cost, cost_for_quantity,
      to_base_unit, idli, rice, hn, stock_qty, List.foldlM]
  refine ⟨hrec, ?_, rfl, ?_⟩
  · simp [onIngredientChangeOne, hrec]
  · norm_num [total_cost, idliCombo, quantizeHalfEven2]

/-- C4 (amended). A `CostBlocked` failure does propagate out of
`PreparedItem.recompute_and_cache_cost`, but the ingredient-change signal
handler catches every exception, logs it, and keeps the previous cached
cost, so dependent products keep reporting the stale cached cost rather
than a blocked/unavailable state. -/
theorem c4_cost_error_swallowed_by_signal (s : Settings)
    (ledger : List LedgerEntry) (pi : PreparedItem) (e : PyError)
    (h : recompute_and_cache_cost s ledger pi = .error e) :
    onIngredientChangeOne s ledger pi = pi ∧
    (onIngredientChangeOne s ledger pi).cost_price_cached = pi.cost_price_cached := by
  have h1 : onIngredientChangeOne s ledger pi = pi := by
    simp [onIngredientChangeOne, h]
  exact ⟨h1, by rw [h1]⟩

/-- Witness for C4 (amended), applying it to idli over an empty ledger. -/
theorem c4_cost_error_swallowed_by_signal_witness :
    onIngredientChangeOne { strict_cost_integrity := true, allow_fallback_pricing := true }
      [] idli = idli := by
  have hn : normalizeUnit "kg" = "kg" := by decide
  have hrec : recompute_and_cache_cost
      { strict_cost_integrity := true, allow_fallback_pricing := true } [] idli
      = .error .costBlockedZeroStock := by
    simp [recompute_and_cache_cost, ingredient_cost, cost_for_quantity,
      to_base_unit, idli, rice, hn, stock_qty, List.foldlM]
  exact (c4_cost_error_swallowed_by_signal _ _ _ _ hrec).1

/-- C1 (code evaluated at the failing input). `Order.confirm_order`
performs no stock check whatsoever before appending consumption entries:
confirming an order for one idli (1 kg of rice per serving) against a
database whose rice stock is zero succeeds, and the committed ledger sums
to −1 kg for rice — the claimed pre-append validation does not exist in
the model method, and post-commit stock goes negative. -/
theorem c1_confirm_order_commits_negative_stock :
    stock_qty dbEmpty.ledger rice = 0 ∧
    confirm_order orderNoStock dbEmpty
      = .ok (dbNoStockAfter, { orderNoStock with status := "confirmed" }) ∧
    stock_qty (confirmedLedger orderNoStock dbEmpty) rice = -1 := by
  have hn : normalizeUnit "kg" = "kg" := by decide
  have hrun : confirm_order orderNoStock dbEmpty
      = .ok (dbNoStockAfter, { orderNoStock with status := "confirmed" }) := by
    simp [confirm_order, confirmRun, orderNoStock, dbEmpty, andThen,
      deductPreparedItemStock, deductPreparedItemStockForQuantity,
      deductRecipeLines, deductOneRecipeLine, lineConsumption, to_base_unit, idli, rice, hn,
      dbNoStockAfter, entryNoStock]
  refine ⟨by simp [stock_qty, dbEmpty, rice], hrun, ?_⟩
  simp [confirmedLedger, hrun]
  norm_num [stock_qty, rice, dbNoStockAfter, entryNoStock]

/-- C2. Whenever `Order.confirm_order` raises (insufficient snack stock,
unit-conversion failure, wrong status, or any other error inside the
transaction body), the rollback performed by `transaction.atomic` —
modelled by `confirm_order` discarding the partial state — leaves the
observable ledger exactly as it was: zero new entries for every
ingredient. -/
theorem c2_rejected_confirmation_writes_nothing (o : Order) (db : DB)
    (e : PyError) (h : confirm_order o db = .error e) :
    confirmedLedger o db = db.ledger ∧
    ∀ i, consumptionEntriesFor (confirmedLedger o db) i
        = consumptionEntriesFor db.ledger i := by
  have h1 : confirmedLedger o db = db.ledger := by
    simp [confirmedLedger, h]
  exact ⟨h1, fun i => by rw [h1]⟩

/-- Witness for C2 at a rejecting run that had already written an entry:
the order deducts one idli (entry appended mid-transaction) and then
fails on snack stock; the raw transaction body reached a state with one
extra ledger entry, the call surfaces the error, and the observable
ledger is unchanged. -/
theorem c2_rejected_confirmation_writes_nothing_witness :
    confirm_order orderSnackFail dbStocked = .error .insufficientSnackStock ∧
    (confirmRun orderSnackFail dbStocked).2.ledger.length
      = dbStocked.ledger.length + 1 ∧
    confirmedLedger orderSnackFail dbStocked = dbStocked.ledger := by
  have hn : normalizeUnit "kg" = "kg" := by decide
  have hrun : confirmRun orderSnackFail dbStocked
      = (some .insufficientSnackStock, dbSnackFailMid) := by
    simp [confirmRun, orderSnackFail, dbStocked, riceOpening, andThen,
      deductPreparedItemStock, deductPreparedItemStockForQuantity,
      deductRecipeLines, deductOneRecipeLine, lineConsumption, to_base_unit, idli, rice, hn,
      deductSnackStock, deductSnackBatches, List.find?,
      dbSnackFailMid, entrySnackFail]
  have herr : confirm_order orderSnackFail dbStocked
      = .error .insufficientSnackStock := by
    simp only [confirm_order, hrun]
    norm_num [orderSnackFail]
  refine ⟨herr, ?_, (c2_rejected_confirmation_writes_nothing _ _ _ herr).1⟩
  rw [hrun]
  simp [dbSnackFailMid, dbStocked, entrySnackFail]

/-- Ledger extension with zero entries is reflexive. -/
theorem ledgerExt_rfl (l : List LedgerEntry) : LedgerExt l l 0 :=
  ⟨[], by simp, rfl, by simp⟩

/-- Ledger extensions compose. -/
theorem ledgerExt_trans {l l2 l3 : List LedgerEntry} {n m : Nat}
    (h1 : LedgerExt l l2 n) (h2 : LedgerExt l2 l3 m) : LedgerExt l l3 (n + m) := by
  obtain ⟨a, ha, han, hac⟩ := h1
  obtain ⟨b, hb, hbn, hbc⟩ := h2
  refine ⟨a ++ b, ?_, ?_, ?_⟩
  · rw [hb, ha, List.append_assoc]
  · simp [han, hbn]
  · intro e he
    rcases List.mem_append.mp he with h | h
    · exact hac e h
    · exact hbc e h

/-- Recounting a ledger extension. -/
theorem ledgerExt_congr {l l2 : List LedgerEntry} {n m : Nat}
    (h : LedgerExt l l2 n) (e : n = m) : LedgerExt l l2 m := e ▸ h

/-- A successful `deductOneRecipeLine` appends exactly one consumption
entry. -/
theorem deductOneRecipeLine_ext (orderId : Nat) (pi : PreparedItem)
    (quantity : ℚ) (combo : Option Nat) (r : RecipeLine)
    (l l2 : List LedgerEntry)
    (h : deductOneRecipeLine orderId pi quantity combo r l = .ok l2) :
    LedgerExt l l2 1 := by
  cases hc : lineConsumption pi quantity r with
  | error e => simp [deductOneRecipeLine, hc] at h
  | ok c =>
      cases hb : to_base_unit r.ingredient c r.quantity_unit with
      | error e => simp [deductOneRecipeLine, hc, hb] at h
      | ok cb =>
          simp [deductOneRecipeLine, hc, hb] at h
          exact ⟨_, h.symm, rfl, by simp⟩

/-- A successful `deductRecipeLines` appends exactly one consumption
entry per recipe line. -/
theorem deductRecipeLines_ext (orderId : Nat) (pi : PreparedItem)
    (quantity : ℚ) (combo : Option Nat) :
    ∀ (rs : List RecipeLine) (l l2 : List LedgerEntry),
      deductRecipeLines orderId pi quantity combo rs l = .ok l2 →
      LedgerExt l l2 rs.length := by
  intro rs
  induction rs with
  | nil =>
      intro l l2 h
      simp [deductRecipeLines] at h
      rw [← h]
      exact ledgerExt_rfl l
  | cons r rest ih =>
      intro l l2 h
      cases hd : deductOneRecipeLine orderId pi quantity combo r l with
      | error e => simp [deductRecipeLines, hd] at h
      | ok lm =>
          simp [deductRecipeLines, hd] at h
          exact ledgerExt_congr
            (ledgerExt_trans (deductOneRecipeLine_ext _ _ _ _ _ _ _ hd) (ih lm l2 h))
            (by simp [Nat.add_comm])

/-- A successful prepared-item deduction appends one consumption entry
per recipe line and leaves the snack rows untouched. -/
theorem deductPreparedItemStockForQuantity_ext (orderId : Nat)
    (pi : PreparedItem) (quantity : ℚ) (combo : Option Nat) (db db2 : DB)
    (h : deductPreparedItemStockForQuantity orderId pi quantity combo db = .ok db2) :
    LedgerExt db.ledger db2.ledger pi.recipe_items.length ∧ db2.snacks = db.snacks := by
  cases hl : deductRecipeLines orderId pi quantity combo pi.recipe_items db.ledger with
  | error e => simp [deductPreparedItemStockForQuantity, hl] at h
  | ok l2 =>
      simp [deductPreparedItemStockForQuantity, hl] at h
      constructor
      · rw [← h]
        exact deductRecipeLines_ext _ _ _ _ _ _ _ hl
      · rw [← h]

/-- A successful combo-items deduction appends one consumption entry per
(item × recipe line). -/
theorem deductComboItems_ext (orderId comboId comboQty : Nat) :
    ∀ (items : List ComboItem) (db db2 : DB),
      deductComboItems orderId comboId comboQty items db = .ok db2 →
      LedgerExt db.ledger db2.ledger
        ((items.map (fun ci => ci.prepared_item.recipe_items.length)).sum) := by
  intro items
  induction items with
  | nil =>
      intro db db2 h
      simp [deductComboItems] at h
      rw [← h]
      exact ledgerExt_rfl _
  | cons ci rest ih =>
      intro db db2 h
      cases hd : deductPreparedItemStockForQuantity orderId ci.prepared_item
          ((ci.quantity : ℚ) * (comboQty : ℚ)) (some comboId) db with
      | error e => simp [deductComboItems, hd] at h
      | ok dbm =>
          simp [deductComboItems, hd] at h
          exact ledgerExt_trans
            (deductPreparedItemStockForQuantity_ext _ _ _ _ _ _ hd).1
            (ih dbm db2 h)

/-- A successful snack deduction never touches the ledger. -/
theorem deductSnackStock_ledger (os : OrderSnack) (db db2 : DB)
    (h : deductSnackStock os db = .ok db2) : db2.ledger = db.ledger := by
  cases hf : db.snacks.find? (fun s => s.id == os.snack_id) with
  | none => simp [deductSnackStock, hf] at h
  | some s =>
      cases hb : deductSnackBatches os.quantity s.batches with
      | error e => simp [deductSnackStock, hf, hb] at h
      | ok bs =>
          simp [deductSnackStock, hf, hb] at h
          rw [← h]

/-- Once a step inside the atomic block has raised, the remaining steps
are skipped and the raise-state is preserved. -/
theorem foldl_andThen_absorb {α : Type} (f : α → DB → Except PyError DB)
    (e : PyError) (db : DB) :
    ∀ l : List α, l.foldl (fun acc x => andThen acc (f x)) (some e, db) = (some e, db) := by
  intro l
  induction l with
  | nil => rfl
  | cons x xs ih => simpa [andThen] using ih

/-- If every individual step extends the ledger by its own count, a fully
successful sequence of steps extends the ledger by the total count. -/
theorem foldl_andThen_ext {α : Type} (f : α → DB → Except PyError DB)
    (g : α → Nat)
    (hf : ∀ x db db2, f x db = .ok db2 → LedgerExt db.ledger db2.ledger (g x)) :
    ∀ (l : List α) (db db2 : DB),
      l.foldl (fun acc x => andThen acc (f x)) ((none : Option PyError), db)
        = ((none : Option PyError), db2) →
      LedgerExt db.ledger db2.ledger ((l.map g).sum) := by
  intro l
  induction l with
  | nil =>
      intro db db2 h
      simp at h
      rw [← h]
      exact ledgerExt_rfl _
  | cons x xs ih =>
      intro db db2 h
      cases hx : f x db with
      | error e =>
          rw [List.foldl_cons, show andThen (none, db) (f x) = (some e, db) by
            simp [andThen, hx], foldl_andThen_absorb] at h
          simp at h
      | ok dbm =>
          rw [List.foldl_cons, show andThen (none, db) (f x) = (none, dbm) by
            simp [andThen, hx]] at h
          exact ledgerExt_trans (hf x db dbm hx) (ih dbm db2 h)

/-- Mapping every element to zero sums to zero. -/
theorem mapZeroSum {α : Type} (l : List α) :
    (l.map (fun _ => (0 : Nat))).sum = 0 := by
  induction l with
  | nil => rfl
  | cons x xs ih => simp [ih]

/-- Decomposition of the transaction body into its three phase folds. -/
theorem confirmRun_eq (o : Order) (db : DB) :
    confirmRun o db
      = o.order_snacks.foldl (fun acc os => andThen acc (deductSnackStock os))
          (o.order_items.foldl (fun acc oi => andThen acc (deductPreparedItemStock o.id oi))
            (o.order_combos.foldl (fun acc oc => andThen acc (deductComboStock o.id oc))
              ((none : Option PyError), db))) := rfl

/-- A fully successful transaction body appends exactly one consumption
entry per expanded recipe line. -/
theorem confirmRun_ext (o : Order) (db db2 : DB)
    (h : confirmRun o db = ((none : Option PyError), db2)) :
    LedgerExt db.ledger db2.ledger (expansionLineCount o) := by
  rw [confirmRun_eq] at h
  rcases h1 : o.order_combos.foldl
      (fun acc oc => andThen acc (deductComboStock o.id oc))
      ((none : Option PyError), db) with ⟨e1, d1⟩
  rw [h1] at h
  cases e1 with
  | some e =>
      rw [foldl_andThen_absorb, foldl_andThen_absorb] at h
      simp at h
  | none =>
      rcases h2 : o.order_items.foldl
          (fun acc oi => andThen acc (deductPreparedItemStock o.id oi))
          ((none : Option PyError), d1) with ⟨e2, d2⟩
      rw [h2] at h
      cases e2 with
      | some e =>
          rw [foldl_andThen_absorb] at h
          simp at h
      | none =>
          have hc : LedgerExt db.ledger d1.ledger
              ((o.order_combos.map (fun oc =>
                (oc.combo.items.map
                  (fun ci => ci.prepared_item.recipe_items.length)).sum)).sum) := by
            refine foldl_andThen_ext _ _ ?_ _ _ _ h1
            intro oc dba dbb hstep
            exact deductComboItems_ext _ _ _ _ _ _ hstep
          have hi : LedgerExt d1.ledger d2.ledger
              ((o.order_items.map (fun oi =>
                oi.prepared_item.recipe_items.length)).sum) := by
            refine foldl_andThen_ext _ _ ?_ _ _ _ h2
            intro oi dba dbb hstep
            exact (deductPreparedItemStockForQuantity_ext _ _ _ _ _ _ hstep).1
          have hs : LedgerExt d2.ledger db2.ledger 0 := by
            have := foldl_andThen_ext (fun os => deductSnackStock os)
              (fun _ => 0) ?_ o.order_snacks d2 db2 h
            · simpa [mapZeroSum] using this
            · intro os dba dbb hstep
              rw [show dbb.ledger = dba.ledger from deductSnackStock_ledger _ _ _ hstep]
              exact ledgerExt_rfl _
          exact ledgerExt_congr (ledgerExt_trans (ledgerExt_trans hc hi) hs)
            (by simp [expansionLineCount])

/-- Evaluation of the two-item order: both prepared items draw on rice,
and the commit writes one entry per recipe line. -/
theorem confirm_orderTwoItems_eval :
    confirm_order orderTwoItems dbStocked = .ok (dbTwoAfter, orderTwoConfirmed) := by
  have hkg : normalizeUnit "kg" = "kg" := by decide
  have hg : normalizeUnit "g" = "gm" := by decide
  simp [confirm_order, confirmRun, orderTwoItems, dbStocked, riceOpening, andThen,
    deductPreparedItemStock, deductPreparedItemStockForQuantity,
    deductRecipeLines, deductOneRecipeLine, lineConsumption, to_base_unit,
    idli, dosa, rice, hkg, hg, dbTwoAfter, orderTwoConfirmed, entrySnackFail]
  norm_num

/-- C6 counterexample: a committed confirmation of one idli plus one dosa
— rice (id 1) is a single distinct ingredient of the expanded demand map
— appends **two** consumption entries for rice, one per recipe line,
where the claim promises exactly one coalesced entry per distinct
ingredient. -/
theorem c6_counterexample_entries_not_coalesced :
    confirm_order orderTwoItems dbStocked = .ok (dbTwoAfter, orderTwoConfirmed) ∧
    (consumptionEntriesFor dbTwoAfter.ledger 1).length = 2 := by
  refine ⟨confirm_orderTwoItems_eval, ?_⟩
  decide

/-- C6 (amended). A committed consumption transaction appends exactly one
negative `consumption` ledger entry per *recipe line* processed (per
prepared-item occurrence × recipe line), not per distinct ingredient: an
ingredient appearing in k expanded recipe lines receives k separate
entries. -/
theorem c6_one_entry_per_recipe_line (o : Order) (db db2 : DB) (o2 : Order)
    (h : confirm_order o db = .ok (db2, o2)) :
    LedgerExt db.ledger db2.ledger (expansionLineCount o) := by
  by_cases hst : o.status ≠ "placed"
  · simp [confirm_order, hst] at h
  · rcases hr : confirmRun o db with ⟨e1, d1⟩
    cases e1 with
    | some e => simp [confirm_order, hst, hr] at h
    | none =>
        have hd : d1 = db2 := by
          simp [confirm_order, hst, hr] at h
          exact h.1
        rw [hd] at hr
        exact confirmRun_ext o db db2 hr

/-- Witness for C6 (amended) at the two-item order: the committed ledger
is the original plus `expansionLineCount orderTwoItems` consumption
entries. -/
theorem c6_one_entry_per_recipe_line_witness :
    LedgerExt dbStocked.ledger dbTwoAfter.ledger (expansionLineCount orderTwoItems) :=
  c6_one_entry_per_recipe_line orderTwoItems dbStocked dbTwoAfter orderTwoConfirmed
    confirm_orderTwoItems_eval

/-- When every recipe line converts successfully with a positive
requirement and positive stock, the availability loop returns the
min-reduction over the lines' floor quotients, started from the
accumulator. -/
theorem availMinLoop_all_pos (ledger : List LedgerEntry) :
    ∀ (lines : List RecipeLine) (acc : ℚ),
      (∀ r ∈ lines, ∃ q, reqBase r = .ok q ∧ 0 < q ∧
          0 < stock_qty ledger r.ingredient) →
      availMinLoop ledger acc lines
        = .ok (some ((lines.map (fun r =>
            decFloorDiv (stock_qty ledger r.ingredient) (reqBaseVal r))).foldl min acc)) := by
  intro lines
  induction lines with
  | nil => intro acc hall; simp [availMinLoop]
  | cons r rest ih =>
      intro acc hall
      obtain ⟨q, hq, hqpos, hspos⟩ := hall r (List.mem_cons_self r rest)
      have hv : reqBaseVal r = q := by simp [reqBaseVal, hq]
      have h1 : ¬ q ≤ 0 := not_le.mpr hqpos
      have h2 : ¬ stock_qty ledger r.ingredient ≤ 0 := not_le.mpr hspos
      simp only [availMinLoop, hq, exceptBindOk, h1, h2, if_false, ite_false,
        List.map_cons, List.foldl_cons, hv]
      exact ih _ (fun x hx => hall x (List.mem_cons_of_mem r hx))

/-- When every line converts but some line has a non-positive requirement
or non-positive stock, the availability loop takes the early
`return 0` path. -/
theorem availMinLoop_hits_zero (ledger : List LedgerEntry) :
    ∀ (lines : List RecipeLine) (acc : ℚ),
      (∀ r ∈ lines, ∃ q, reqBase r = .ok q) →
      (∃ r ∈ lines, reqBaseVal r ≤ 0 ∨ stock_qty ledger r.ingredient ≤ 0) →
      availMinLoop ledger acc lines = .ok none := by
  intro lines
  induction lines with
  | nil => intro acc hconv hex; simp at hex
  | cons r rest ih =>
      intro acc hconv hex
      obtain ⟨q, hq⟩ := hconv r (List.mem_cons_self r rest)
      have hv : reqBaseVal r = q := by simp [reqBaseVal, hq]
      by_cases h1 : q ≤ 0
      · simp [availMinLoop, hq, h1]
      · by_cases h2 : stock_qty ledger r.ingredient ≤ 0
        · simp [availMinLoop, hq, h1, h2]
        · simp only [availMinLoop, hq, exceptBindOk]
          rw [if_neg h1, if_neg h2]
          refine ih _ (fun x hx => hconv x (List.mem_cons_of_mem r hx)) ?_
          obtain ⟨rb, hmem, hbad⟩ := hex
          rcases List.mem_cons.mp hmem with hrb | hrb
          · subst hrb
            rw [hv] at hbad
            cases hbad with
            | inl hb => exact absurd hb h1
            | inr hb => exact absurd hb h2
          · exact ⟨rb, hrb, hbad⟩

/-- C8 counterexample: 2 000 000 kg of tomato against a 1 kg-per-batch
recipe. The claim's formula (min over lines of floor(stock/required),
times servings per batch) yields 4 000 000 servings, but the code's
min-reduction starts from the sentinel `999999`, capping the result at
999999 × 2 = 1 999 998. -/
theorem c8_counterexample_sentinel_cap :
    get_available_quantity tomatoHuge sambarCap = .ok 1999998 ∧
    specBatchServings tomatoHuge sambarCap = 4000000 ∧
    (1999998 : ℚ) ≠ 4000000 := by
  have hn : normalizeUnit "kg" = "kg" := by decide
  refine ⟨?_, ?_, by norm_num⟩
  · simp [get_available_quantity, sambarCap, availMinLoop, reqBase,
      to_base_unit, tomato, hn, stock_qty, tomatoHuge]
    norm_num [decFloorDiv, min_def]
  · simp [specBatchServings, specMinOverLines, sambarCap, reqBaseVal, reqBase,
      to_base_unit, tomato, hn, stock_qty, tomatoHuge]
    norm_num [decFloorDiv, min_def]

/-- C8 (amended). For a batch-mode prepared item with a non-falsy
`batch_output_quantity`, a non-zero serving size and a non-empty recipe:
when every line's converted requirement and stock are positive,
`available_quantity` equals
`min(999999, min over lines of floor(stock / required)) × floor(batch_output / serving_size)`
— the min-reduction starts from the source's sentinel `999999`, which
caps batches at 999999 — and it equals 0 as soon as any line has a
non-positive converted requirement or non-positive stock. -/
theorem c8_batch_availability (ledger : List LedgerEntry) (pi : PreparedItem)
    (b : ℚ) (hmode : pi.production_mode = .batch)
    (hb : pi.batch_output_quantity = some b) (hb0 : b ≠ 0)
    (hs0 : pi.serving_size ≠ 0) (hne : pi.recipe_items ≠ []) :
    ((∀ r ∈ pi.recipe_items, ∃ q, reqBase r = .ok q ∧ 0 < q ∧
        0 < stock_qty ledger r.ingredient) →
      get_available_quantity ledger pi
        = .ok (((pi.recipe_items.map (fun r =>
            decFloorDiv (stock_qty ledger r.ingredient) (reqBaseVal r))).foldl min 999999)
              * decFloorDiv b pi.serving_size)) ∧
    ((∀ r ∈ pi.recipe_items, ∃ q, reqBase r = .ok q) →
     (∃ r ∈ pi.recipe_items, reqBaseVal r ≤ 0 ∨ stock_qty ledger r.ingredient ≤ 0) →
      get_available_quantity ledger pi = .ok 0) := by
  have hie : pi.recipe_items.isEmpty = false := by
    cases hpi : pi.recipe_items with
    | nil => exact absurd hpi hne
    | cons a l => rfl
  constructor
  · intro hall
    rw [get_available_quantity, if_neg (by simp [hie]), hmode]
    simp only [hb]
    rw [if_neg hb0, availMinLoop_all_pos ledger pi.recipe_items 999999 hall]
    simp only [exceptBindOk]
    rw [if_neg hs0]
    rfl
  · intro hconv hex
    rw [get_available_quantity, if_neg (by simp [hie]), hmode]
    simp only [hb]
    rw [if_neg hb0, availMinLoop_hits_zero ledger pi.recipe_items 999999 hconv hex]
    rfl

/-- Witness for C8 (amended) at the spec's own batch example: output
5000 ml at 100 ml per serving (50 servings/batch), 2 kg of tomato per
batch and 5 kg in stock yield 2 batches × 50 = 100 servings. -/
theorem c8_batch_availability_witness :
    get_available_quantity tomatoFive sambarSpecExample = .ok 100 := by
  have hn : normalizeUnit "kg" = "kg" := by decide
  have hall : ∀ r ∈ sambarSpecExample.recipe_items, ∃ q, reqBase r = .ok q ∧
      0 < q ∧ 0 < stock_qty tomatoFive r.ingredient := by
    intro r hr
    simp only [sambarSpecExample, List.mem_singleton] at hr
    subst hr
    refine ⟨2, by simp [reqBase, to_base_unit, tomato, hn], by norm_num, ?_⟩
    norm_num [stock_qty, tomatoFive, tomato]
  have h := (c8_batch_availability tomatoFive sambarSpecExample 5000 rfl rfl
    (by norm_num) (by norm_num [sambarSpecExample]) (by simp [sambarSpecExample])).1 hall
  rw [h]
  simp [sambarSpecExample, reqBaseVal, reqBase, to_base_unit, tomato, hn,
    stock_qty, tomatoFive]
  norm_num [decFloorDiv, min_def]

end Swad
